import Mathlib

/-!
Shallow embedding of `roadmap_generator.py` (the roadmap workflow of the
coadmap repository) and verification of its specified properties.

The workflow sequences calls to an external Generation Client
(`api_client.ClaudeClient`), optionally collects console answers to
clarifying questions, and returns the final roadmap text.  Remote calls,
status-callback invocations, animation start/stop and log lines are
recorded in an explicit event trace; Python exceptions become `Except`
values.  The three client operations are the only fallible steps; the
status callback, the animation presenter and `input()` are modelled as
total, and console prompt text is elided from the trace.
-/

namespace Roadmap

/-- Python exception values reaching the workflow: `ServiceOverloadedError`
(raised by the client after its internal retries are exhausted) versus any
other `Exception`, each carrying its `str(e)` message. -/
inductive PyErr
  | overloaded (msg : String)
  | generic (msg : String)
deriving DecidableEq, Repr

/-- `str(e)` of an exception. -/
def PyErr.msg : PyErr → String
  | .overloaded m => m
  | .generic m => m

/-- AnswerSet: an insertion-ordered mapping question key → answer text,
as a Python `dict` built by successive assignment. -/
abbrev AnswerSet := List (String × String)

/-- QuestionSet as produced by `generate_questions_for_roadmap`: per the
source docstring, "a dictionary of question_key: question_text pairs". -/
abbrev QuestionSet := List (String × String)

/-- The Generation Client (`api_client.ClaudeClient`), an external
collaborator with three fallible request/response operations. -/
structure Client where
  generate_initial_roadmap : String → Except PyErr String
  generate_questions_for_roadmap : String → String → Except PyErr QuestionSet
  reflect_on_roadmap_with_answers : String → String → AnswerSet → Except PyErr String

/-- Observable events of a workflow run. -/
inductive Event
  | callInitial (idea : String)
  | callQuestions (roadmap idea : String)
  | callReflect (roadmap idea : String) (answers : AnswerSet)
  | status (msg : String)
  | animStart (label : String)
  | animStop (label : String)
  | logError (msg : String)
deriving DecidableEq, Repr

/-- Is the event a remote call to the Generation Client? -/
def Event.isCall : Event → Bool
  | .callInitial _ => true
  | .callQuestions _ _ => true
  | .callReflect _ _ _ => true
  | _ => false

/-- The subsequence of remote-call events of a trace. -/
def callsOf (t : List Event) : List Event := t.filter Event.isCall

/-- Is the event an animation start or stop? -/
def Event.isAnim : Event → Bool
  | .animStart _ => true
  | .animStop _ => true
  | _ => false

/-- The subsequence of animation events of a trace. -/
def animEvents (t : List Event) : List Event := t.filter Event.isAnim

/-- Is the event a status-callback invocation? -/
def Event.isStatus : Event → Bool
  | .status _ => true
  | _ => false

/-- The subsequence of status-callback invocations of a trace. -/
def statusEvents (t : List Event) : List Event := t.filter Event.isStatus

/-- `if status_callback: status_callback(msg)` — the callback fires only
when the caller supplied one. -/
def emitStatus (hasCallback : Bool) (msg : String) : List Event :=
  if hasCallback then [.status msg] else []

/-- Message of the exception raised by `generate_roadmap` on overload. -/
def overloadMsgSimple : String :=
  "Service is currently overloaded. Please try again later."

/-- Message of the exception raised by `generate_roadmap_with_questions`
on overload. -/
def overloadMsgBackoff : String :=
  "Service is currently overloaded. Please try again later with exponential backoff."

/-- Message of the exception raised by `generate_questions_from_roadmap`
on overload. -/
def overloadMsgQuestions : String :=
  "Service is currently overloaded while generating questions. Please try again later."

/-- Status message sent by both workflows when the overload handler fires. -/
def retryStatusMsg : String :=
  "❌ Error: Service is currently overloaded. The application has attempted to retry but was unsuccessful."

/-- The two `except` clauses of `generate_roadmap` (lines 38-47):
`ServiceOverloadedError` is logged, reported via the callback and replaced
by a plain `Exception` with a fixed user-facing message; any other
exception is logged, reported and re-raised unchanged. -/
def handleSimpleErr (hasCallback : Bool) (e : PyErr) :
    Except PyErr String × List Event :=
  match e with
  | .overloaded m =>
      (.error (.generic overloadMsgSimple),
       .logError ("Service overloaded even after retries: " ++ m) ::
         emitStatus hasCallback retryStatusMsg)
  | .generic m =>
      (.error (.generic m),
       .logError ("Error generating roadmap: " ++ m) ::
         emitStatus hasCallback ("❌ Error: " ++ m))

/-- `generate_roadmap` (lines 12-47): initial generation, then reflection
with an empty answers dict, then the completion status message; errors go
through `handleSimpleErr`. -/
def generate_roadmap (client : Client) (hasCallback : Bool) (idea : String) :
    Except PyErr String × List Event :=
  match client.generate_initial_roadmap idea with
  | .error e =>
      let r := handleSimpleErr hasCallback e
      (r.1, .callInitial idea :: r.2)
  | .ok initial =>
      match client.reflect_on_roadmap_with_answers initial idea [] with
      | .error e =>
          let r := handleSimpleErr hasCallback e
          (r.1, .callInitial idea :: .callReflect initial idea [] :: r.2)
      | .ok final =>
          (.ok final,
           .callInitial idea :: .callReflect initial idea [] ::
             emitStatus hasCallback "✅ Roadmap generation complete!")

/-- Does the character belong to the set stripped by Python `str.strip()`? -/
def isPyWhitespace (c : Char) : Bool :=
  c == ' ' || c == '\t' || c == '\n' || c == '\r' || c == '\x0b' || c == '\x0c'

/-- Truthiness of `user_answer.strip()`: the string has a character that
`strip` does not remove. -/
def pyStripNonempty (s : String) : Bool :=
  s.data.any (fun c => !(isPyWhitespace c))

/-- The answer-collection loop of `generate_roadmap_with_questions`
(lines 108-112), from question index `i`: one `input()` per question, the
raw answer stored under the question key when its `strip()` is non-empty,
nothing stored otherwise; the loop never repeats a prompt. -/
def collectAnswersFrom (questions : QuestionSet) (inputs : Nat → String)
    (i : Nat) : AnswerSet :=
  match questions with
  | [] => []
  | (k, _) :: rest =>
      if pyStripNonempty (inputs i) then
        (k, inputs i) :: collectAnswersFrom rest inputs (i + 1)
      else
        collectAnswersFrom rest inputs (i + 1)

/-- `answers` after the prompting loop, starting from the first question;
`inputs j` is what the user types at the prompt for question `j`. -/
def collectAnswers (questions : QuestionSet) (inputs : Nat → String) : AnswerSet :=
  collectAnswersFrom questions inputs 0

/-- `generate_questions_from_roadmap` (lines 144-164): one client call;
`ServiceOverloadedError` is logged and replaced by a plain `Exception`
with a questions-specific message, any other exception is logged and
re-raised unchanged. -/
def generate_questions_from_roadmap (client : Client) (roadmap idea : String) :
    Except PyErr QuestionSet × List Event :=
  match client.generate_questions_for_roadmap roadmap idea with
  | .ok qs => (.ok qs, [.callQuestions roadmap idea])
  | .error (.overloaded m) =>
      (.error (.generic overloadMsgQuestions),
       [.callQuestions roadmap idea,
        .logError ("Service overloaded even after retries when generating questions: " ++ m)])
  | .error (.generic m) =>
      (.error (.generic m),
       [.callQuestions roadmap idea,
        .logError ("Error generating questions from roadmap: " ++ m)])

/-- The outer `except` clauses of `generate_roadmap_with_questions`
(lines 133-142): overload is logged, reported and replaced by a plain
`Exception` mentioning exponential backoff; anything else is logged,
reported and re-raised unchanged. -/
def handleInteractiveOuter (hasCallback : Bool) (e : PyErr) :
    Except PyErr String × List Event :=
  match e with
  | .overloaded m =>
      (.error (.generic overloadMsgBackoff),
       .logError ("Service overloaded even after retries: " ++ m) ::
         emitStatus hasCallback retryStatusMsg)
  | .generic m =>
      (.error (.generic m),
       .logError ("Error generating roadmap with questions: " ++ m) ::
         emitStatus hasCallback ("❌ Error: " ++ m))

/-- Animation label of the initial-generation step. -/
def labelGenerating : String := "Generating roadmap based on your idea"

/-- Animation label of the question-generation step. -/
def labelQuestions : String := "Analyzing roadmap and generating customized questions"

/-- Animation label of the reflection step. -/
def labelReflection : String := "Starting reflection process with your input"

/-- Trace of one inner `except Exception` handler of the interactive
workflow: stop the animation, log with the stage context, report via the
callback, re-raise (the outer handler then runs on the same exception). -/
def innerFailTrace (hasCallback : Bool) (label logCtx : String) (e : PyErr) :
    List Event :=
  .animStop label ::
    .logError (logCtx ++ e.msg) ::
      emitStatus hasCallback ("❌ Error: " ++ e.msg)

/-- `generate_roadmap_with_questions` (lines 56-142): three animated
stages — initial generation, question generation (via
`generate_questions_from_roadmap`), console prompting, reflection with the
collected answers — each remote call wrapped in start/try/stop, failures
re-raised into the outer handler. -/
def generate_roadmap_with_questions (client : Client) (hasCallback : Bool)
    (idea : String) (inputs : Nat → String) : Except PyErr String × List Event :=
  match client.generate_initial_roadmap idea with
  | .error e =>
      let r := handleInteractiveOuter hasCallback e
      (r.1,
       .animStart labelGenerating :: .callInitial idea ::
         (innerFailTrace hasCallback labelGenerating "Error generating initial roadmap: " e ++ r.2))
  | .ok initial =>
      let qres := generate_questions_from_roadmap client initial idea
      let head : List Event :=
        .animStart labelGenerating :: .callInitial idea ::
          .animStop labelGenerating ::
            emitStatus hasCallback "✅ Initial roadmap generation complete!" ++
              .animStart labelQuestions :: qres.2
      match qres.1 with
      | .error e =>
          let r := handleInteractiveOuter hasCallback e
          (r.1,
           head ++ innerFailTrace hasCallback labelQuestions "Error generating questions: " e ++ r.2)
      | .ok questions =>
          let answers := collectAnswers questions inputs
          let head2 : List Event :=
            head ++
              .animStop labelQuestions ::
                emitStatus hasCallback "✅ Customized questions generated!" ++
                  [.animStart labelReflection,
                   .callReflect initial idea answers]
          match client.reflect_on_roadmap_with_answers initial idea answers with
          | .error e =>
              let r := handleInteractiveOuter hasCallback e
              (r.1,
               head2 ++ innerFailTrace hasCallback labelReflection "Error during reflection process: " e ++ r.2)
          | .ok final =>
              (.ok final,
               head2 ++
                 .animStop labelReflection ::
                   emitStatus hasCallback "✅ Roadmap customization complete!")

/-- `loading_animation.AnimationType`, the presenter styles. -/
inductive AnimationType
  | SPINNER
  | DOTS
  | BAR
  | TYPING
deriving DecidableEq, Repr

/-- The `choices=` list of the `--animation` argument (line 168). -/
def animationChoices : List String := ["spinner", "dots", "bar", "typing"]

/-- The `animation_map` dict of `main` (lines 176-181). -/
def animation_map : List (String × AnimationType) :=
  [("spinner", .SPINNER), ("dots", .DOTS), ("bar", .BAR), ("typing", .TYPING)]

/-- `animation_map.get(args.animation, AnimationType.SPINNER)` (line 182). -/
def animationMapGet (s : String) : AnimationType :=
  (animation_map.lookup s).getD .SPINNER

/-- argparse validation of `--animation`: a value outside `choices=` makes
`parse_args` print a usage error and exit, so `main` never proceeds with
it (`none`); a listed value is passed through. -/
def parseAnimationArg (s : String) : Option String :=
  if s ∈ animationChoices then some s else none

/-- The presenter style `main` runs with for a given `--animation` value:
argparse validation, then the dictionary lookup with spinner default;
`none` means the invocation was rejected before any workflow ran. -/
def resolveAnimation (s : String) : Option AnimationType :=
  (parseAnimationArg s).map animationMapGet

/-- Observable output actions of `main` after a successful workflow run. -/
inductive OutEvent
  | makedirs (dir : String)
  | writeFile (path content : String)
  | printOut (s : String)
deriving DecidableEq, Repr

/-- Does the string start with the path separator (an absolute POSIX path)? -/
def startsWithSlash (s : String) : Bool :=
  match s.data with
  | [] => false
  | c :: _ => c == '/'

/-- Does the string end with the path separator? -/
def endsWithSlash (s : String) : Bool :=
  match s.data.getLast? with
  | some c => c == '/'
  | none => false

/-- `os.path.join(a, b)` for the two-argument form used at line 199:
an absolute second component replaces the first, otherwise the parts are
joined with exactly one separator. -/
def ospath_join (a b : String) : String :=
  if startsWithSlash b then b
  else if endsWithSlash a || a.data.isEmpty then a ++ b
  else a ++ "/" ++ b

/-- The output stage of `main` (lines 192-204): the completion line, then
either `makedirs('roadmaps')`, a verbatim write of the roadmap to
`os.path.join('roadmaps', args.output)` and a confirmation line, or — with
no `--output` — the roadmap printed to standard output. -/
def mainOutput (output : Option String) (roadmap : String) : List OutEvent :=
  .printOut "\nRoadmap generation complete!" ::
    match output with
    | some out =>
        [.makedirs "roadmaps",
         .writeFile (ospath_join "roadmaps" out) roadmap,
         .printOut ("Roadmap saved to " ++ ospath_join "roadmaps" out)]
    | none => [.printOut ("\n" ++ roadmap)]

/-- The decimal value of a digit string (meaningful when `allDigits`). -/
def natOfDigits (cs : List Char) : Nat :=
  cs.foldl (fun n c => 10 * n + (c.toNat - 48)) 0

/-- Is every character a decimal digit? -/
def allDigits (cs : List Char) : Bool :=
  cs.all Char.isDigit

/-- Modelled from the spec: the acceptance test of the interactive prompt
for a QuestionSet entry carrying a finite choice-list of length `n` — the
typed input must parse as an integer with `1 ≤ value ≤ n` ("the
interactive prompt only accepts integers in [1, N]"). -/
def specChoiceAccepts (n : Nat) (s : String) : Bool :=
  !s.data.isEmpty && allDigits s.data &&
    decide (1 ≤ natOfDigits s.data) && decide (natOfDigits s.data ≤ n)

/-- Is `stem` an initial segment of the second list? -/
def stemAtStart : List Char → List Char → Bool
  | [], _ => true
  | _ :: _, [] => false
  | a :: as, b :: bs => a == b && stemAtStart as bs

/-- Does the list contain `stem` as a contiguous run? -/
def hasSub (stem : List Char) : List Char → Bool
  | [] => stem.isEmpty
  | c :: cs => stemAtStart stem (c :: cs) || hasSub stem cs

/-- Modelled from the spec: an error message "indicating that retries were
already attempted/exhausted" must at least mention retrying, attempts or
exhaustion — checked as containing one of the word stems below. -/
def mentionsPriorRetries (s : String) : Bool :=
  hasSub "retr".data s.data || hasSub "Retr".data s.data ||
    hasSub "attempt".data s.data || hasSub "Attempt".data s.data ||
      hasSub "exhaust".data s.data || hasSub "Exhaust".data s.data

/-- A Generation Client stub on which every operation succeeds: the
initial roadmap is "R1", the QuestionSet has one entry whose text displays
two choice labels, refinement appends a suffix to the roadmap. -/
def clientHappy : Client where
  generate_initial_roadmap := fun _ => .ok "R1"
  generate_questions_for_roadmap := fun _ _ =>
    .ok [("team_size", "Choose your team size: 1) Solo 2) Team")]
  reflect_on_roadmap_with_answers := fun r _ _ => .ok (r ++ "-refined")

/-- A Generation Client stub whose initial-roadmap operation fails with
the transient-overload error. -/
def clientInitialOverloaded : Client where
  generate_initial_roadmap := fun _ => .error (.overloaded "503")
  generate_questions_for_roadmap := fun _ _ => .ok []
  reflect_on_roadmap_with_answers := fun _ _ _ => .ok "unreached"

/-- A Generation Client stub whose question-generation operation fails
with the transient-overload error. -/
def clientQuestionsOverloaded : Client where
  generate_initial_roadmap := fun _ => .ok "R1"
  generate_questions_for_roadmap := fun _ _ => .error (.overloaded "503")
  reflect_on_roadmap_with_answers := fun _ _ _ => .ok "unreached"

/-- A sequence of scoped animation uses: for each label in turn, one
`start` immediately matched by one `stop`. -/
def animPairs : List String → List Event
  | [] => []
  | l :: ls => .animStart l :: .animStop l :: animPairs ls

/-! ## Helper lemmas -/

theorem callsOf_append (s t : List Event) :
    callsOf (s ++ t) = callsOf s ++ callsOf t :=
  List.filter_append _ _

theorem animEvents_append (s t : List Event) :
    animEvents (s ++ t) = animEvents s ++ animEvents t :=
  List.filter_append _ _

theorem statusEvents_append (s t : List Event) :
    statusEvents (s ++ t) = statusEvents s ++ statusEvents t :=
  List.filter_append _ _

theorem callsOf_emitStatus (hc : Bool) (m : String) :
    callsOf (emitStatus hc m) = [] := by
  cases hc <;> rfl

theorem animEvents_emitStatus (hc : Bool) (m : String) :
    animEvents (emitStatus hc m) = [] := by
  cases hc <;> rfl

theorem collectAnswersFrom_keys_sublist (qs : QuestionSet)
    (inputs : Nat → String) (i : Nat) :
    ((collectAnswersFrom qs inputs i).map Prod.fst).Sublist (qs.map Prod.fst) := by
  induction qs generalizing i with
  | nil => simp [collectAnswersFrom]
  | cons q rest ih =>
    obtain ⟨k, t⟩ := q
    rw [collectAnswersFrom]
    by_cases h : pyStripNonempty (inputs i)
    · simpa [h] using (ih (i + 1)).cons₂ k
    · simpa [h] using (ih (i + 1)).cons k

theorem collectAnswersFrom_mem (qs : QuestionSet) (inputs : Nat → String)
    (i : Nat) (p : String × String) (hp : p ∈ collectAnswersFrom qs inputs i) :
    ∃ j, j < qs.length ∧ (∃ t, qs[j]? = some (p.1, t)) ∧
      p.2 = inputs (i + j) ∧ pyStripNonempty (inputs (i + j)) = true := by
  induction qs generalizing i with
  | nil => simp [collectAnswersFrom] at hp
  | cons q rest ih =>
    obtain ⟨k, t⟩ := q
    rw [collectAnswersFrom] at hp
    by_cases h : pyStripNonempty (inputs i)
    · rw [if_pos h] at hp
      rcases List.mem_cons.mp hp with h' | hp'
      · refine ⟨0, by simp, ⟨t, by simp [h']⟩, by simp [h'], by simpa using h⟩
      · obtain ⟨j, hj, ht, he, hs⟩ := ih (i + 1) hp'
        refine ⟨j + 1, by simpa using hj, by simpa using ht, ?_, ?_⟩
        · rw [he]; congr 1; omega
        · have : i + 1 + j = i + (j + 1) := by omega
          rwa [this] at hs
    · rw [if_neg h] at hp
      obtain ⟨j, hj, ht, he, hs⟩ := ih (i + 1) hp
      refine ⟨j + 1, by simpa using hj, by simpa using ht, ?_, ?_⟩
      · rw [he]; congr 1; omega
      · have : i + 1 + j = i + (j + 1) := by omega
        rwa [this] at hs

theorem collectAnswersFrom_inputs_congr (qs : QuestionSet)
    (inputs inputs2 : Nat → String) (i : Nat)
    (h : ∀ j, j < qs.length → inputs (i + j) = inputs2 (i + j)) :
    collectAnswersFrom qs inputs i = collectAnswersFrom qs inputs2 i := by
  induction qs generalizing i with
  | nil => rfl
  | cons q rest ih =>
    obtain ⟨k, t⟩ := q
    have h0 : inputs i = inputs2 i := by simpa using h 0 (by simp)
    have hrest : ∀ j, j < rest.length → inputs (i + 1 + j) = inputs2 (i + 1 + j) := by
      intro j hj
      have : i + 1 + j = i + (j + 1) := by omega
      rw [this]
      exact h (j + 1) (by simpa using hj)
    rw [collectAnswersFrom, collectAnswersFrom, h0, ih (i + 1) hrest]

/-! ## Claims -/

/-- C1, counterexample.  A QuestionSet entry whose text displays a finite
choice-list of length 2 is fed the out-of-range input "7": the prompting
loop of `generate_roadmap_with_questions` accepts it, advances, and
records the typed digits "7" under the question key — even though the
spec's acceptance test for a 2-element choice-list rejects "7".  So the
prompt does not "accept only integers in [1, N]", does not re-prompt, and
records the digits instead of a choice-label. -/
theorem C1_counterexample :
    collectAnswers [("team_size", "Choose your team size: 1) Solo 2) Team")]
        (fun _ => "7") = [("team_size", "7")] ∧
    specChoiceAccepts 2 "7" = false := by
  constructor <;> rfl

/-- C1, amended: the interactive prompt treats every QuestionSet entry as
open-ended — it reads exactly one input per question (the collected
answers depend only on the first `questions.length` inputs, so no
re-prompting ever occurs), and every recorded answer is the raw typed
input of its question, stored verbatim, with blank inputs recorded
nowhere; no choice-list validation is performed. -/
theorem C1_prompt_open_ended (qs : QuestionSet) (inputs inputs2 : Nat → String)
    (hagree : ∀ j, j < qs.length → inputs j = inputs2 j) :
    collectAnswers qs inputs = collectAnswers qs inputs2 ∧
    ∀ p ∈ collectAnswers qs inputs, ∃ j, j < qs.length ∧
      (∃ t, qs[j]? = some (p.1, t)) ∧ p.2 = inputs j ∧
        pyStripNonempty (inputs j) = true := by
  constructor
  · exact collectAnswersFrom_inputs_congr qs inputs inputs2 0
      (by intro j hj; simpa using hagree j hj)
  · intro p hp
    obtain ⟨j, hj, ht, he, hs⟩ := collectAnswersFrom_mem qs inputs 0 p hp
    exact ⟨j, hj, ht, by simpa using he, by simpa using hs⟩

/-- C1 witness: the amended theorem applied to a two-question set with a
blank second input. -/
theorem C1_prompt_open_ended_witness :
    collectAnswers [("a", "q1"), ("b", "q2")] (fun j => if j = 0 then "yes" else " ") =
      collectAnswers [("a", "q1"), ("b", "q2")]
        (fun j => if j = 0 then "yes" else if j = 1 then " " else "later") ∧
    ∀ p ∈ collectAnswers [("a", "q1"), ("b", "q2")]
        (fun j => if j = 0 then "yes" else " "), ∃ j, j < 2 ∧
      (∃ t, [("a", "q1"), ("b", "q2")][j]? = some (p.1, t)) ∧
        p.2 = (if j = 0 then "yes" else " ") ∧
          pyStripNonempty (if j = 0 then "yes" else " ") = true := by
  have h := C1_prompt_open_ended [("a", "q1"), ("b", "q2")]
    (fun j => if j = 0 then "yes" else " ")
    (fun j => if j = 0 then "yes" else if j = 1 then " " else "later")
    (by
      intro j hj
      rcases j with _ | _ | j
      · rfl
      · rfl
      · exact absurd hj (by simp))
  simpa using h

/-- C4: after the prompting loop, given that the QuestionSet keys are
distinct (it is a Python dict), the AnswerSet keys form a duplicate-free
subsequence of the QuestionSet keys — at most one entry per question, in
the QuestionSet's original order — and every stored answer is non-blank
(questions answered with empty or whitespace-only input are simply
absent). -/
theorem C4_answerset_invariants (qs : QuestionSet) (inputs : Nat → String)
    (h : (qs.map Prod.fst).Nodup) :
    ((collectAnswers qs inputs).map Prod.fst).Sublist (qs.map Prod.fst) ∧
    ((collectAnswers qs inputs).map Prod.fst).Nodup ∧
    ∀ p ∈ collectAnswers qs inputs, pyStripNonempty p.2 = true := by
  refine ⟨collectAnswersFrom_keys_sublist qs inputs 0,
    (collectAnswersFrom_keys_sublist qs inputs 0).nodup h, ?_⟩
  intro p hp
  obtain ⟨j, hj, ht, he, hs⟩ := collectAnswersFrom_mem qs inputs 0 p hp
  rw [he]
  simpa using hs

/-- C4 witness: the invariants at a concrete two-question set where the
second input is whitespace-only. -/
theorem C4_answerset_invariants_witness :
    ((collectAnswers [("a", "q1"), ("b", "q2")]
        (fun j => if j = 0 then "yes" else " ")).map Prod.fst).Sublist
      ([("a", "q1"), ("b", "q2")].map Prod.fst) ∧
    ((collectAnswers [("a", "q1"), ("b", "q2")]
        (fun j => if j = 0 then "yes" else " ")).map Prod.fst).Nodup ∧
    ∀ p ∈ collectAnswers [("a", "q1"), ("b", "q2")]
        (fun j => if j = 0 then "yes" else " "), pyStripNonempty p.2 = true :=
  C4_answerset_invariants [("a", "q1"), ("b", "q2")]
    (fun j => if j = 0 then "yes" else " ") (by decide)

/-- C2: for a non-empty IdeaDescription, when both remote calls succeed,
the simple workflow performs exactly one initial-generation call and
exactly one refine call (in that order, and no question-generation call),
passes the empty AnswerSet to refine, and returns the refine result. -/
theorem C2_simple_workflow_calls (client : Client) (hc : Bool)
    (idea initial final : String) (_hidea : idea ≠ "")
    (h1 : client.generate_initial_roadmap idea = .ok initial)
    (h2 : client.reflect_on_roadmap_with_answers initial idea [] = .ok final) :
    (generate_roadmap client hc idea).1 = .ok final ∧
    callsOf (generate_roadmap client hc idea).2 =
      [.callInitial idea, .callReflect initial idea []] := by
  cases hc <;>
    simp [generate_roadmap, h1, h2, callsOf, emitStatus, Event.isCall]

/-- C2 witness: the simple workflow on a client that returns "R1" and
then refines it to "R1-refined". -/
theorem C2_simple_workflow_calls_witness :
    (generate_roadmap clientHappy true "idea").1 = .ok "R1-refined" ∧
    callsOf (generate_roadmap clientHappy true "idea").2 =
      [.callInitial "idea", .callReflect "R1" "idea" []] :=
  C2_simple_workflow_calls clientHappy true "idea" "R1" "R1-refined"
    (by decide) rfl rfl

/-- C5: in the simple workflow, a transient-overload failure from either
remote call is replaced by a plain exception carrying the user-facing
"Service is currently overloaded. Please try again later." message, while
a generic failure from either call is re-raised with its original message
unchanged; in every failure case the workflow returns an error and no
Roadmap value. -/
theorem C5_simple_error_translation (client : Client) (hc : Bool)
    (idea m : String) :
    (client.generate_initial_roadmap idea = .error (.overloaded m) →
      (generate_roadmap client hc idea).1 = .error (.generic overloadMsgSimple)) ∧
    (client.generate_initial_roadmap idea = .error (.generic m) →
      (generate_roadmap client hc idea).1 = .error (.generic m)) ∧
    (∀ initial, client.generate_initial_roadmap idea = .ok initial →
      client.reflect_on_roadmap_with_answers initial idea [] = .error (.overloaded m) →
      (generate_roadmap client hc idea).1 = .error (.generic overloadMsgSimple)) ∧
    (∀ initial, client.generate_initial_roadmap idea = .ok initial →
      client.reflect_on_roadmap_with_answers initial idea [] = .error (.generic m) →
      (generate_roadmap client hc idea).1 = .error (.generic m)) := by
  refine ⟨fun h => ?_, fun h => ?_, fun initial h1 h2 => ?_, fun initial h1 h2 => ?_⟩ <;>
    simp [generate_roadmap, handleSimpleErr, *]

/-- C5 witness: the overload translation on a client whose initial call
fails with the transient-overload error. -/
theorem C5_simple_error_translation_witness :
    (generate_roadmap clientInitialOverloaded true "idea").1 =
      .error (.generic overloadMsgSimple) :=
  (C5_simple_error_translation clientInitialOverloaded true "idea" "503").1 rfl

/-- C3, counterexample.  With a client whose initial-generation call fails
with the transient-overload error, the interactive workflow indeed makes
no question-generation and no refine call, but the error it propagates is
"Service is currently overloaded. Please try again later with exponential
backoff." — forward-looking advice that does not mention that retries
were already attempted or exhausted, so the claim's message requirement
fails. -/
theorem C3_counterexample :
    clientInitialOverloaded.generate_initial_roadmap "idea" =
      .error (.overloaded "503") ∧
    callsOf (generate_roadmap_with_questions clientInitialOverloaded true "idea"
      (fun _ => "")).2 = [.callInitial "idea"] ∧
    (generate_roadmap_with_questions clientInitialOverloaded true "idea"
      (fun _ => "")).1 = .error (.generic overloadMsgBackoff) ∧
    mentionsPriorRetries overloadMsgBackoff = false := by
  exact ⟨rfl, rfl, rfl, rfl⟩

/-- C3, amended: if the initial-roadmap call fails with the
transient-overload error, the interactive workflow makes no
question-generation and no refine call and propagates a generic exception
with the fixed message "Service is currently overloaded. Please try again
later with exponential backoff."; the indication that retries were
already attempted appears in the status callback (when one is supplied),
not in the propagated error. -/
theorem C3_initial_overload_no_further_calls (client : Client) (hc : Bool)
    (idea m : String) (inputs : Nat → String)
    (h : client.generate_initial_roadmap idea = .error (.overloaded m)) :
    (generate_roadmap_with_questions client hc idea inputs).1 =
      .error (.generic overloadMsgBackoff) ∧
    callsOf (generate_roadmap_with_questions client hc idea inputs).2 =
      [.callInitial idea] ∧
    (hc = true → Event.status retryStatusMsg ∈
      (generate_roadmap_with_questions client hc idea inputs).2) := by
  cases hc <;>
    simp [generate_roadmap_with_questions, h, handleInteractiveOuter,
      innerFailTrace, emitStatus, callsOf, Event.isCall, PyErr.msg]

/-- C3 witness: the amended behavior on a concrete overloaded client. -/
theorem C3_initial_overload_no_further_calls_witness :
    (generate_roadmap_with_questions clientInitialOverloaded true "idea"
      (fun _ => "")).1 = .error (.generic overloadMsgBackoff) ∧
    callsOf (generate_roadmap_with_questions clientInitialOverloaded true "idea"
      (fun _ => "")).2 = [.callInitial "idea"] ∧
    (true = true → Event.status retryStatusMsg ∈
      (generate_roadmap_with_questions clientInitialOverloaded true "idea"
        (fun _ => "")).2) :=
  C3_initial_overload_no_further_calls clientInitialOverloaded true "idea" "503"
    (fun _ => "") rfl

/-- C7: in the interactive workflow, whatever the outcomes of the three
remote calls, the animation events of the run form a sequence of scoped
start/stop pairs — every Animation Presenter started is stopped exactly
once before control leaves the wrapping region, on success and on
exception alike. -/
theorem C7_animation_balanced (client : Client) (hc : Bool) (idea : String)
    (inputs : Nat → String) :
    ∃ labels : List String,
      animEvents (generate_roadmap_with_questions client hc idea inputs).2 =
        animPairs labels := by
  rcases hInit : client.generate_initial_roadmap idea with e | initial
  · exact ⟨[labelGenerating], by
      cases e <;> cases hc <;>
        simp [generate_roadmap_with_questions, hInit, handleInteractiveOuter,
          innerFailTrace, emitStatus, animEvents, Event.isAnim, animPairs, PyErr.msg]⟩
  · rcases hQ : client.generate_questions_for_roadmap initial idea with e | qs
    · exact ⟨[labelGenerating, labelQuestions], by
        cases e <;> cases hc <;>
          simp [generate_roadmap_with_questions, hInit, hQ,
            generate_questions_from_roadmap, handleInteractiveOuter,
            innerFailTrace, emitStatus, animEvents, Event.isAnim, animPairs,
            PyErr.msg]⟩
    · rcases hR : client.reflect_on_roadmap_with_answers initial idea
        (collectAnswers qs inputs) with e | final
      · exact ⟨[labelGenerating, labelQuestions, labelReflection], by
          cases e <;> cases hc <;>
            simp [generate_roadmap_with_questions, hInit, hQ, hR,
              generate_questions_from_roadmap, handleInteractiveOuter,
              innerFailTrace, emitStatus, animEvents, Event.isAnim, animPairs,
              PyErr.msg]⟩
      · exact ⟨[labelGenerating, labelQuestions, labelReflection], by
          cases hc <;>
            simp [generate_roadmap_with_questions, hInit, hQ, hR,
              generate_questions_from_roadmap, emitStatus, animEvents,
              Event.isAnim, animPairs]⟩

/-- C9, counterexample.  On a fully successful run, the simple workflow
invokes the status callback exactly once — the single "✅ Roadmap
generation complete!" message — so there is no separate notification at
the "initial generation complete" checkpoint, and the claimed pair of
checkpoints does not exist. -/
theorem C9_counterexample :
    statusEvents (generate_roadmap clientHappy true "idea").2 =
      [.status "✅ Roadmap generation complete!"] ∧
    (statusEvents (generate_roadmap clientHappy true "idea").2).length = 1 := by
  exact ⟨rfl, rfl⟩

/-- C9, amended: with a status callback supplied and all remote calls
succeeding, the simple workflow invokes the callback exactly once, on
overall completion; the interactive workflow invokes it exactly once
after each of the three remote calls — never before a call — and the
three stage messages are pairwise distinct, so an observer of the
callback can distinguish the three remote calls. -/
theorem C9_status_checkpoints (client : Client) (idea : String)
    (inputs : Nat → String) (initial finalS finalI : String) (qs : QuestionSet)
    (h1 : client.generate_initial_roadmap idea = .ok initial)
    (hq : client.generate_questions_for_roadmap initial idea = .ok qs)
    (h2 : client.reflect_on_roadmap_with_answers initial idea [] = .ok finalS)
    (h3 : client.reflect_on_roadmap_with_answers initial idea
      (collectAnswers qs inputs) = .ok finalI) :
    statusEvents (generate_roadmap client true idea).2 =
      [.status "✅ Roadmap generation complete!"] ∧
    (generate_roadmap_with_questions client true idea inputs).2 =
      [.animStart labelGenerating, .callInitial idea, .animStop labelGenerating,
       .status "✅ Initial roadmap generation complete!",
       .animStart labelQuestions, .callQuestions initial idea,
       .animStop labelQuestions, .status "✅ Customized questions generated!",
       .animStart labelReflection,
       .callReflect initial idea (collectAnswers qs inputs),
       .animStop labelReflection, .status "✅ Roadmap customization complete!"] ∧
    ("✅ Initial roadmap generation complete!" ≠ "✅ Customized questions generated!" ∧
     "✅ Initial roadmap generation complete!" ≠ "✅ Roadmap customization complete!" ∧
     "✅ Customized questions generated!" ≠ "✅ Roadmap customization complete!") := by
  refine ⟨?_, ?_, by decide, by decide, by decide⟩
  · simp [generate_roadmap, h1, h2, statusEvents, emitStatus, Event.isStatus]
  · simp [generate_roadmap_with_questions, h1, hq, h3,
      generate_questions_from_roadmap, emitStatus]

/-- C9 witness: the amended checkpoint behavior on a concrete
all-succeeding client with input "1". -/
theorem C9_status_checkpoints_witness :
    statusEvents (generate_roadmap clientHappy true "idea").2 =
      [.status "✅ Roadmap generation complete!"] :=
  (C9_status_checkpoints clientHappy "idea" (fun _ => "1") "R1" "R1-refined"
    "R1-refined" [("team_size", "Choose your team size: 1) Solo 2) Team")]
    rfl rfl rfl rfl).1

/-- C10: when the initial call succeeds and question generation fails
with the transient-overload error, the helper converts it into a generic
exception with the questions-specific message, so the workflow propagates
that message — distinct from the exponential-backoff message of the
workflow's own overload handler — and the overload handler's status
notification is never emitted. -/
theorem C10_questions_overload_translated (client : Client) (hc : Bool)
    (idea initial m : String) (inputs : Nat → String)
    (h1 : client.generate_initial_roadmap idea = .ok initial)
    (h2 : client.generate_questions_for_roadmap initial idea = .error (.overloaded m)) :
    (generate_roadmap_with_questions client hc idea inputs).1 =
      .error (.generic overloadMsgQuestions) ∧
    overloadMsgQuestions ≠ overloadMsgBackoff ∧
    Event.status retryStatusMsg ∉
      (generate_roadmap_with_questions client hc idea inputs).2 := by
  refine ⟨?_, by decide, ?_⟩
  · simp [generate_roadmap_with_questions, h1, h2, generate_questions_from_roadmap,
      handleInteractiveOuter]
  · cases hc <;>
      simp [generate_roadmap_with_questions, h1, h2,
        generate_questions_from_roadmap, handleInteractiveOuter, innerFailTrace,
        emitStatus, PyErr.msg, retryStatusMsg, overloadMsgQuestions]

/-- C10 witness: the translated questions-overload error on a concrete
client. -/
theorem C10_questions_overload_translated_witness :
    (generate_roadmap_with_questions clientQuestionsOverloaded true "idea"
      (fun _ => "")).1 = .error (.generic overloadMsgQuestions) :=
  (C10_questions_overload_translated clientQuestionsOverloaded true "idea" "R1"
    "503" (fun _ => "") rfl rfl).1

/-- C6, counterexample.  With `--output foo.md`, `main` creates the fixed
`roadmaps` directory and writes the roadmap to `roadmaps/foo.md` — not to
the path `foo.md` that was supplied — and the confirmation line names the
prefixed path.  So the text is not written "to exactly that path". -/
theorem C6_counterexample :
    mainOutput (some "foo.md") "R" =
      [.printOut "\nRoadmap generation complete!", .makedirs "roadmaps",
       .writeFile "roadmaps/foo.md" "R",
       .printOut "Roadmap saved to roadmaps/foo.md"] ∧
    ("roadmaps/foo.md" : String) ≠ "foo.md" := by
  exact ⟨rfl, by decide⟩

/-- C6, amended: when the output-file argument is present (a relative
path), the roadmap text is written verbatim to `roadmaps/<output>` after
creating the fixed `roadmaps` directory, and a confirmation line naming
that prefixed path is printed; when the argument is absent, the roadmap
is printed to standard output. -/
theorem C6_output_to_roadmaps_dir (out roadmap : String)
    (h : startsWithSlash out = false) :
    mainOutput (some out) roadmap =
      [.printOut "\nRoadmap generation complete!", .makedirs "roadmaps",
       .writeFile ("roadmaps/" ++ out) roadmap,
       .printOut ("Roadmap saved to " ++ ("roadmaps/" ++ out))] ∧
    mainOutput none roadmap =
      [.printOut "\nRoadmap generation complete!", .printOut ("\n" ++ roadmap)] := by
  constructor
  · have hj : ospath_join "roadmaps" out = "roadmaps/" ++ out := by
      rw [ospath_join, if_neg (by simp [h]), if_neg (by decide)]
      rfl
    simp [mainOutput, hj]
  · rfl

/-- C6 witness: the output policy at `--output plan.md`. -/
theorem C6_output_to_roadmaps_dir_witness :
    mainOutput (some "plan.md") "R2" =
      [.printOut "\nRoadmap generation complete!", .makedirs "roadmaps",
       .writeFile ("roadmaps/" ++ "plan.md") "R2",
       .printOut ("Roadmap saved to " ++ ("roadmaps/" ++ "plan.md"))] ∧
    mainOutput none "R2" =
      [.printOut "\nRoadmap generation complete!", .printOut ("\n" ++ "R2")] :=
  C6_output_to_roadmaps_dir "plan.md" "R2" rfl

/-- C8, counterexample.  The unrecognized `--animation` value "wave" does
not fall back to the spinner style: argparse's `choices=` validation
rejects the invocation outright, so `main` never proceeds to pick any
presenter style. -/
theorem C8_counterexample :
    resolveAnimation "wave" = none ∧
    resolveAnimation "wave" ≠ some AnimationType.SPINNER := by
  exact ⟨rfl, by decide⟩

/-- C8, amended: each of the four recognized `--animation` values selects
its corresponding presenter style; an unrecognized value is rejected by
the argument parser, so the invocation fails before any workflow runs —
the dictionary-lookup fallback to spinner exists in `main` but can only
be reached with a value that already passed validation, and for a value
outside the choices it would indeed yield spinner. -/
theorem C8_animation_argument (s : String) (h : s ∉ animationChoices) :
    resolveAnimation "spinner" = some AnimationType.SPINNER ∧
    resolveAnimation "dots" = some AnimationType.DOTS ∧
    resolveAnimation "bar" = some AnimationType.BAR ∧
    resolveAnimation "typing" = some AnimationType.TYPING ∧
    resolveAnimation s = none ∧
    animationMapGet s = AnimationType.SPINNER := by
  have hs : s ≠ "spinner" ∧ s ≠ "dots" ∧ s ≠ "bar" ∧ s ≠ "typing" := by
    refine ⟨?_, ?_, ?_, ?_⟩ <;> (rintro rfl; exact h (by simp [animationChoices]))
  obtain ⟨h1, h2, h3, h4⟩ := hs
  refine ⟨rfl, rfl, rfl, rfl, ?_, ?_⟩
  · simp [resolveAnimation, parseAnimationArg, h]
  · simp [animationMapGet, animation_map, List.lookup,
      beq_eq_false_iff_ne.mpr h1, beq_eq_false_iff_ne.mpr h2,
      beq_eq_false_iff_ne.mpr h3, beq_eq_false_iff_ne.mpr h4]

/-- C8 witness: the amended behavior at the unrecognized value "wave". -/
theorem C8_animation_argument_witness :
    resolveAnimation "spinner" = some AnimationType.SPINNER ∧
    resolveAnimation "dots" = some AnimationType.DOTS ∧
    resolveAnimation "bar" = some AnimationType.BAR ∧
    resolveAnimation "typing" = some AnimationType.TYPING ∧
    resolveAnimation "wave" = none ∧
    animationMapGet "wave" = AnimationType.SPINNER :=
  C8_animation_argument "wave" (by decide)

end Roadmap
